import Mathlib

/-!
# Car-pooling trip lifecycle: server handlers and console operations

A shallow embedding of `mainsub.go` (the HTTP server that owns the `users` and
`trips` maps) and of the trip operations of `consolesub.go` (the console client
that performs some checks locally before calling the server).

* Go maps `map[string]T` are total lookup functions `String → Option T`.
* `time.Time` instants and `time.Duration` are integers counting nanoseconds;
  `time.Now()` is an explicit argument `now` of every function that reads the clock.
* Go `int` is a 64-bit two's-complement integer: arithmetic results go through `wrapInt`.
* A handler returns the store after the call together with the HTTP reply it wrote.
* The JSON body of a request is given already decoded; `none` stands for a body
  that `Decode` rejects.
* Requests are handled one at a time: a handler runs from its first statement to its
  return on the store the previous one left.
-/

namespace CarPool

/-! ## Time -/

/-- An instant (`time.Time`), in nanoseconds. -/
abbrev Time := Int

/-- A span of time (`time.Duration`), in nanoseconds. -/
abbrev Duration := Int

/-- Go `time.Second`. -/
def Second : Duration := 1000000000

/-- Go `time.Minute`. -/
def Minute : Duration := 60 * Second

/-- Smallest `time.Duration` (an `int64`). -/
def minDuration : Duration := -(2 ^ 63)

/-- Largest `time.Duration` (an `int64`). -/
def maxDuration : Duration := 2 ^ 63 - 1

/-- Go `t.Sub(u)`: the difference `t - u`, saturated to the range of `time.Duration`. -/
def timeSub (t u : Time) : Duration :=
  if t - u < minDuration then minDuration
  else if maxDuration < t - u then maxDuration
  else t - u

/-- Go `time.Until(t)`, that is `t.Sub(time.Now())`, with the clock reading `now`. -/
def timeUntil (now t : Time) : Duration := timeSub t now

/-- Go `t.Add(d)`. -/
def timeAdd (t : Time) (d : Duration) : Time := t + d

/-- Go `t.Before(u)`. -/
def timeBefore (t u : Time) : Bool := decide (t < u)

/-! ## Machine integers -/

/-- The value of a Go `int` (64 bits, two's complement) holding the mathematical result `x`. -/
def wrapInt (x : Int) : Int := (x + 2 ^ 63) % 2 ^ 64 - 2 ^ 63

/-- The values a Go `int` can hold. -/
def inIntRange (x : Int) : Prop := -(2 ^ 63) ≤ x ∧ x < 2 ^ 63

instance (x : Int) : Decidable (inIntRange x) := by
  unfold inIntRange; exact inferInstance

/-! ## Data model -/

/-- The `User` struct. -/
structure User where
  ID : String
  FirstName : String
  LastName : String
  MobileNumber : String
  Email : String
  DriverLicense : String
  CarPlateNumber : String
  IsCarOwner : Bool
  CreatedAt : Time
  deriving DecidableEq

/-- The `Trip` struct. -/
structure Trip where
  ID : String
  CarOwnerID : String
  PickupLocation : String
  AltPickupLocation : String
  StartTime : Time
  Destination : String
  AvailableSeats : Int
  EnrolledPassengers : List String
  TotalSeats : Int
  Started : Bool
  deriving DecidableEq

/-- The two package-level maps `users` and `trips` of the server. -/
structure Store where
  users : String → Option User
  trips : String → Option Trip

/-- The maps at server start: both empty. -/
def Store.empty : Store := { users := fun _ => none, trips := fun _ => none }

/-- Map assignment `m[k] = v`. -/
def mapSet {α : Type} (m : String → Option α) (k : String) (v : α) : String → Option α :=
  fun j => if j = k then some v else m j

/-- Map deletion `delete(m, k)`. -/
def mapDelete {α : Type} (m : String → Option α) (k : String) : String → Option α :=
  fun j => if j = k then none else m j

/-! ## HTTP vocabulary -/

/-- The request methods the router lets through. -/
inductive Method where
  | GET
  | POST
  | PUT
  | DELETE
  deriving DecidableEq

/-- The string `r.Method`. -/
def Method.name : Method → String
  | .GET => "GET"
  | .POST => "POST"
  | .PUT => "PUT"
  | .DELETE => "DELETE"

/-- What a handler writes as the body of its reply. -/
inductive Body where
  | text (s : String)
  | userJson (u : User)
  | tripJson (t : Trip)
  | usersJson
  | tripsJson
  deriving DecidableEq

/-- The reply of a handler: the status code and the body. -/
structure Response where
  status : Nat
  body : Body
  deriving DecidableEq

/-- Go `http.StatusOK`, the status of a reply on which `WriteHeader` was not called. -/
def StatusOK : Nat := 200

/-- Go `http.StatusAccepted`. -/
def StatusAccepted : Nat := 202

/-- Go `http.StatusBadRequest`. -/
def StatusBadRequest : Nat := 400

/-- Go `http.StatusUnauthorized`. -/
def StatusUnauthorized : Nat := 401

/-- Go `http.StatusNotFound`. -/
def StatusNotFound : Nat := 404

/-- The `Status` line of a reply as the client prints it (`response.Status`). -/
def statusLine (code : Nat) : String :=
  if code = 200 then "200 OK"
  else if code = 202 then "202 Accepted"
  else if code = 400 then "400 Bad Request"
  else if code = 401 then "401 Unauthorized"
  else if code = 404 then "404 Not Found"
  else toString code

/-! ## The server (`mainsub.go`) -/

namespace Server

/-- Handler `getUser`: GET and DELETE on `/api/v1/users/{id}`. -/
def getUser (s : Store) (method : Method) (userID : String) : Store × Response :=
  match s.users userID with
  | some user =>
    if method = .GET then (s, ⟨StatusOK, .userJson user⟩)
    else if method = .DELETE then
      ({ s with users := mapDelete s.users userID },
        ⟨StatusOK, .text ("User " ++ userID ++ " deleted")⟩)
    else (s, ⟨StatusOK, .text ""⟩)
  | none => (s, ⟨StatusNotFound, .text "Invalid user ID"⟩)

/-- Handler `getAllUsers`. -/
def getAllUsers (s : Store) : Store × Response := (s, ⟨StatusOK, .usersJson⟩)

/-- Handler `createOrUpdateUser`: POST and PUT on `/api/v1/users/{id}`. -/
def createOrUpdateUser (s : Store) (now : Time) (method : Method) (userID : String)
    (payload : Option User) : Store × Response :=
  match payload with
  | none => (s, ⟨StatusBadRequest, .text "Invalid request payload"⟩)
  | some decoded =>
    let user := if method = .POST then { decoded with CreatedAt := now } else decoded
    if user.IsCarOwner && (user.DriverLicense == "" || user.CarPlateNumber == "") then
      (s, ⟨StatusBadRequest,
        .text "Driver's license and car plate number are required for car owners"⟩)
    else
      ({ s with users := mapSet s.users userID user },
        ⟨StatusAccepted, .text ("User " ++ method.name ++ " " ++ userID ++ " successfully")⟩)

/-- Handler `getTrip`: GET and DELETE on `/api/v1/trips/{id}`. -/
def getTrip (s : Store) (method : Method) (tripID : String) : Store × Response :=
  match s.trips tripID with
  | some trip =>
    if method = .GET then (s, ⟨StatusOK, .tripJson trip⟩)
    else if method = .DELETE then
      ({ s with trips := mapDelete s.trips tripID },
        ⟨StatusOK, .text ("Trip " ++ tripID ++ " deleted")⟩)
    else (s, ⟨StatusOK, .text ""⟩)
  | none => (s, ⟨StatusNotFound, .text "Invalid trip ID"⟩)

/-- Handler `getAllTrips`. -/
def getAllTrips (s : Store) : Store × Response := (s, ⟨StatusOK, .tripsJson⟩)

/-- The passenger list a trip is stored with by `createOrUpdateTrip`: the list of the trip
already stored under the id when there is one, the list of the payload otherwise. -/
def keptPassengers (existing : Option Trip) (trip : Trip) : List String :=
  match existing with
  | some existingTrip => existingTrip.EnrolledPassengers
  | none => trip.EnrolledPassengers

/-- The seat count `createOrUpdateTrip` stores: `TotalSeats - len(EnrolledPassengers)` as a
Go `int`, replaced by 0 when negative. -/
def seatsLeft (totalSeats : Int) (passengers : List String) : Int :=
  let availableSeats := wrapInt (totalSeats - (passengers.length : Int))
  if availableSeats < 0 then 0 else availableSeats

/-- Handler `createOrUpdateTrip`: POST and PUT on `/api/v1/trips/{id}`. -/
def createOrUpdateTrip (s : Store) (now : Time) (method : Method) (tripID : String)
    (payload : Option Trip) : Store × Response :=
  match payload with
  | none => (s, ⟨StatusBadRequest, .text "Invalid request payload"⟩)
  | some trip =>
    match s.users trip.CarOwnerID with
    | none => (s, ⟨StatusNotFound, .text "Error - Car owner does not exist"⟩)
    | some carOwner =>
      if !carOwner.IsCarOwner then
        (s, ⟨StatusBadRequest, .text "Error - Only car owners can create trips"⟩)
      else if carOwner.IsCarOwner
          && (carOwner.DriverLicense == "" || carOwner.CarPlateNumber == "") then
        (s, ⟨StatusBadRequest, .text "Error - Car owner profile incomplete"⟩)
      else if timeUntil now trip.StartTime < 30 * Minute then
        (s, ⟨StatusBadRequest,
          .text "Error - Trips must be scheduled at least 30 minutes in the future"⟩)
      else
        let passengers := keptPassengers (s.trips tripID) trip
        let stored : Trip :=
          { trip with
            EnrolledPassengers := passengers
            AvailableSeats := seatsLeft trip.TotalSeats passengers }
        ({ s with trips := mapSet s.trips tripID stored },
          ⟨StatusAccepted, .text ("Trip " ++ method.name ++ " " ++ tripID ++ " successfully")⟩)

/-- The loop of `enrollPassenger` over the passengers: true when one of them is `userID`. -/
def alreadyEnrolled (userID : String) : List String → Bool
  | [] => false
  | passengerID :: rest => if passengerID = userID then true else alreadyEnrolled userID rest

/-- Handler `enrollPassenger`: PUT on `/api/v1/trips/{id}/enroll`. The payload is the decoded
`map[string]string`. -/
def enrollPassenger (s : Store) (tripID : String)
    (payload : Option (String → Option String)) : Store × Response :=
  match payload with
  | none => (s, ⟨StatusBadRequest, .text "Invalid request payload"⟩)
  | some enrollmentData =>
    match enrollmentData "user_id" with
    | none =>
      (s, ⟨StatusBadRequest, .text "Error - User ID is required in the request payload"⟩)
    | some userID =>
      match s.trips tripID with
      | some trip =>
        if alreadyEnrolled userID trip.EnrolledPassengers then
          (s, ⟨StatusBadRequest, .text "Error - User already enrolled in this trip"⟩)
        else
          let stored : Trip :=
            { trip with EnrolledPassengers := trip.EnrolledPassengers ++ [userID] }
          ({ s with trips := mapSet s.trips tripID stored },
            ⟨StatusAccepted,
              .text ("User " ++ userID ++ " enrolled in trip " ++ tripID ++ " successfully")⟩)
      | none => (s, ⟨StatusNotFound, .text "Invalid trip ID"⟩)

/-- Handler `startTrip`: PUT on `/api/v1/trips/{id}/start`; `carOwnerID` is the value of the
`car-owner-id` header. -/
def startTrip (s : Store) (now : Time) (tripID carOwnerID : String) : Store × Response :=
  match s.trips tripID with
  | none => (s, ⟨StatusNotFound, .text "Invalid trip ID"⟩)
  | some trip =>
    if trip.CarOwnerID ≠ carOwnerID then
      (s, ⟨StatusUnauthorized, .text "Error - Only the car owner can start the trip"⟩)
    else if trip.Started then
      (s, ⟨StatusBadRequest, .text "Error - Trip is already started"⟩)
    else if trip.EnrolledPassengers.length = 0 then
      (s, ⟨StatusBadRequest,
        .text "Error - Trip cannot start without any enrolled passengers"⟩)
    else if timeUntil now trip.StartTime < 30 * Minute then
      (s, ⟨StatusBadRequest,
        .text "Error - Trip cannot be started more than 30 minutes after scheduled time"⟩)
    else
      ({ s with trips := mapSet s.trips tripID { trip with Started := true } },
        ⟨StatusAccepted, .text ("Trip " ++ tripID ++ " started successfully")⟩)

/-- A request the router of `main` passes to a handler: the route, the method where the route
is registered for several, the `{id}` of the path, and the decoded body or header the
handler reads. -/
inductive Request where
  | users
  | user (method : Method) (userID : String) (payload : Option User)
  | trips
  | trip (method : Method) (tripID : String) (payload : Option Trip)
  | enroll (tripID : String) (payload : Option (String → Option String))
  | start (tripID : String) (carOwnerID : String)

/-- The routes registered in `main`: `/users/{id}` and `/trips/{id}` go to the getter for GET
and DELETE and to `createOrUpdate…` for POST and PUT; `/users` and `/trips` list;
`/trips/{id}/enroll` and `/trips/{id}/start` take PUT. `now` is the clock reading while the
request is handled. -/
def handle (s : Store) (now : Time) : Request → Store × Response
  | .users => getAllUsers s
  | .user .GET userID _ => getUser s .GET userID
  | .user .DELETE userID _ => getUser s .DELETE userID
  | .user .POST userID payload => createOrUpdateUser s now .POST userID payload
  | .user .PUT userID payload => createOrUpdateUser s now .PUT userID payload
  | .trips => getAllTrips s
  | .trip .GET tripID _ => getTrip s .GET tripID
  | .trip .DELETE tripID _ => getTrip s .DELETE tripID
  | .trip .POST tripID payload => createOrUpdateTrip s now .POST tripID payload
  | .trip .PUT tripID payload => createOrUpdateTrip s now .PUT tripID payload
  | .enroll tripID payload => enrollPassenger s tripID payload
  | .start tripID carOwnerID => startTrip s now tripID carOwnerID

/-- The store after the server, started on `s`, has handled the requests of `trace` in order,
each at its clock reading. -/
def run (s : Store) : List (Time × Request) → Store
  | [] => s
  | (now, request) :: rest => run (handle s now request).1 rest

end Server

/-! ## The console client (`consolesub.go`)

A console operation calls the server through HTTP: it pastes the typed id, unescaped, into
the URL (`baseURL + "/trips/" + tripID`) and the router reads the `{id}` back from the path
of the request it receives. For a typed id made of ASCII letters, digits, `-` and `_` only,
non-empty and at most 255 characters long, the id read back is the typed one and the call is
the application of the handler registered for the route, on the server's store. Other typed
ids (empty, or with `?`, `#`, `%`, `/`, `.`, blanks, …) reach the router as another id,
another route or none; what the client library and the router make of them is not part of
these sources and is not modelled: a console operation is `none` on them.

The result of an operation is the server's store afterwards and the lines the operation
prints (prompts left out). The server is taken to answer every request, no other client
changes the store during an operation, and the JSON encoding of a user or trip decodes to
the same record. -/

namespace Console

/-- The answers typed at the prompts of `createNewTrip`, after the trip id. `startTime` is the
result of `time.Parse` on the typed time and `totalSeats` the result of `strconv.Atoi`;
`none` stands for a parse error. -/
structure TripInput where
  carOwnerID : String
  pickupLocation : String
  altPickupLocation : String
  startTime : Option Time
  destination : String
  totalSeats : Option Int

/-- Format verb `%v` on a `bool`. -/
def fmtBool (b : Bool) : String := if b then "true" else "false"

/-- Format verb `%v` on a `[]string`. -/
def fmtStrings (l : List String) : String := "[" ++ " ".intercalate l ++ "]"

/-- What `fmt.Println(string(body))` prints for a reply; the handlers reached this way reply
with text. -/
def printBody : Body → String
  | .text t => t
  | .userJson _ => "(user record)"
  | .tripJson _ => "(trip record)"
  | .usersJson => "(all users)"
  | .tripsJson => "(all trips)"

/-- A character that stands for itself in the path of a URL and in a header value. -/
def plainChar (c : Char) : Bool := c.isAlphanum || c == '-' || c == '_'

/-- The typed ids whose requests are modelled: non-empty, at most 255 characters, all of them
ASCII letters, digits, `-` or `_`. -/
def plainID (typed : String) : Bool :=
  decide (typed.length ≠ 0) && decide (typed.length ≤ 255) && typed.data.all plainChar

/-- The `{id}` the router reads from the path of a request sent to
`baseURL + "/trips/" + typed` (or `"/users/" + typed`, or with `/enroll` or `/start`
appended): the typed id itself when it is plain; not modelled otherwise. -/
def pathID (typed : String) : Option String := if plainID typed then some typed else none

/-- The value the server reads from a header the client set to `typed`: the typed text itself
when it is plain; not modelled otherwise. -/
def headerValue (typed : String) : Option String := if plainID typed then some typed else none

/-- Function `userExists`: GET on the user answers 200. -/
def userExists (s : Store) (userID : String) : Option Bool :=
  match pathID userID with
  | none => none
  | some id => some ((Server.getUser s .GET id).2.status == StatusOK)

/-- Function `tripExists`: GET on the trip answers 200. -/
def tripExists (s : Store) (tripID : String) : Option Bool :=
  match pathID tripID with
  | none => none
  | some id => some ((Server.getTrip s .GET id).2.status == StatusOK)

/-- The payload `newTrip` of `createNewTrip` as the server decodes it into a `Trip`. -/
def newTripPayload (tripID : String) (input : TripInput) (startTime : Time)
    (totalSeats : Int) : Trip :=
  { ID := tripID
    CarOwnerID := input.carOwnerID
    PickupLocation := input.pickupLocation
    AltPickupLocation := input.altPickupLocation
    StartTime := startTime
    Destination := input.destination
    AvailableSeats := 0
    EnrolledPassengers := []
    TotalSeats := totalSeats
    Started := false }

/-- Menu entry 6, `createNewTrip`. `now` is the console's clock reading and `nowServer` the
server's when the POST arrives. -/
def createNewTrip (s : Store) (now nowServer : Time) (tripID : String) (input : TripInput) :
    Option (Store × List String) :=
  match tripExists s tripID with
  | none => none
  | some true => some (s, ["Error - Trip already exists"])
  | some false =>
    match userExists s input.carOwnerID with
    | none => none
    | some false => some (s, ["Error - Car owner does not exist"])
    | some true =>
      match pathID input.carOwnerID, pathID tripID with
      | some ownerID, some id =>
        let carOwnerResp := (Server.getUser s .GET ownerID).2
        if carOwnerResp.status ≠ StatusOK then
          some (s, ["Error retrieving car owner information: "
            ++ statusLine carOwnerResp.status])
        else
          match carOwnerResp.body with
          | .userJson carOwner =>
            if !carOwner.IsCarOwner then some (s, ["Error - Only car owners can create trips"])
            else if carOwner.IsCarOwner
                && (carOwner.DriverLicense == "" || carOwner.CarPlateNumber == "") then
              some (s, ["Error - Car owner profile incomplete"])
            else
              match input.startTime with
              | none =>
                some (s, ["Invalid input for start time. Please enter a valid time in \x2715:04\x27 format."])
              | some startTime =>
                if timeBefore startTime (timeAdd now (30 * Minute)) then
                  some (s, ["Error - Trips must be scheduled at least 30 minutes in the future"])
                else
                  match input.totalSeats with
                  | none =>
                    some (s, ["Invalid input for total seats. Please enter a valid number."])
                  | some totalSeats =>
                    let reply := Server.createOrUpdateTrip s nowServer .POST id
                      (some (newTripPayload tripID input startTime totalSeats))
                    some (reply.1, [printBody reply.2.body])
          | _ => some (s, ["Error decoding car owner information"])
      | _, _ => none

/-- Menu entry 7, `enrollPassenger`. -/
def enrollPassenger (s : Store) (tripID userID : String) : Option (Store × List String) :=
  match tripExists s tripID, pathID tripID with
  | some found, some id =>
    if !found then some (s, ["Error - Trip does not exist"])
    else
      let reply := Server.enrollPassenger s id
        (some (fun key => if key = "user_id" then some userID else none))
      some (reply.1, [printBody reply.2.body])
  | _, _ => none

/-- Function `startTripOnServer`: the PUT on `/trips/{id}/start` with the `car-owner-id`
header, and the line it prints. -/
def startTripOnServer (s : Store) (nowServer : Time) (tripID carOwnerID : String) :
    Option (Store × List String) :=
  match pathID tripID, headerValue carOwnerID with
  | some id, some owner =>
    let reply := Server.startTrip s nowServer id owner
    if reply.2.status ≠ StatusAccepted then
      some (reply.1, ["Error starting trip: " ++ statusLine reply.2.status])
    else some (reply.1, ["Trip started successfully on the server."])
  | _, _ => none

/-- Menu entry 8, `startTrip`. `now` is the console's clock reading and `nowServer` the
server's when the PUT arrives. -/
def startTrip (s : Store) (now nowServer : Time) (tripID carOwnerID : String) :
    Option (Store × List String) :=
  match tripExists s tripID, pathID tripID with
  | some found, some id =>
    if !found then some (s, ["Error - Trip does not exist"])
    else
      let tripResp := (Server.getTrip s .GET id).2
      if tripResp.status ≠ StatusOK then
        some (s, ["Error retrieving trip information: " ++ statusLine tripResp.status])
      else
        match tripResp.body with
        | .tripJson trip =>
          let info := ["Trip " ++ tripID ++ " Information:",
            " - Started: " ++ fmtBool trip.Started,
            " - Enrolled Passengers: " ++ fmtStrings trip.EnrolledPassengers]
          if trip.CarOwnerID ≠ carOwnerID then
            some (s, info ++ ["Error - Only the car owner can start the trip"])
          else if trip.Started then some (s, info ++ ["Error - Trip is already started"])
          else if trip.EnrolledPassengers.length = 0 then
            some (s, info ++ ["Error - Trip cannot start without any enrolled passengers"])
          else if timeUntil now trip.StartTime < -30 * Minute then
            some (s, info ++
              ["Error - Trip cannot be started more than 30 minutes after scheduled time"])
          else
            match startTripOnServer s nowServer tripID carOwnerID with
            | none => none
            | some sent => some (sent.1, info ++ sent.2 ++ ["Trip started successfully."])
        | _ => some (s, ["Error decoding trip information"])
  | _, _ => none

end Console

/-! ## The end-to-end scenario

The states of the scenario: user `U1` (car owner, license `L1`, plate `P1`) is created at
time 0, then trip `T1` of `U1` with two seats, starting one hour later, then `U2` and `U3`
enroll. -/

namespace Scenario

/-- The payload creating user `U1`. -/
def ownerU1 : User :=
  { ID := "U1", FirstName := "Una", LastName := "One", MobileNumber := "1", Email := "u1@x",
    DriverLicense := "L1", CarPlateNumber := "P1", IsCarOwner := true, CreatedAt := 0 }

/-- The payload creating trip `T1` with the given start time, as the console sends it. -/
def tripT1 (startTime : Time) : Trip :=
  { ID := "T1", CarOwnerID := "U1", PickupLocation := "A", AltPickupLocation := "",
    StartTime := startTime, Destination := "B", AvailableSeats := 0,
    EnrolledPassengers := [], TotalSeats := 2, Started := false }

/-- The payload of an enrollment of `userID`. -/
def enrollData (userID : String) : String → Option String :=
  fun key => if key = "user_id" then some userID else none

/-- The store after `U1` is created. -/
def withOwner : Store :=
  (Server.createOrUpdateUser Store.empty 0 .POST "U1" (some ownerU1)).1

/-- The store after trip `T1` is created at time 0, starting at `60 * Minute`. -/
def withTrip : Store :=
  (Server.createOrUpdateTrip withOwner 0 .POST "T1" (some (tripT1 (60 * Minute)))).1

/-- The store after `U2` enrolls in `T1`. -/
def withU2 : Store := (Server.enrollPassenger withTrip "T1" (some (enrollData "U2"))).1

/-- The store after `U3` enrolls in `T1` as well. -/
def withU3 : Store := (Server.enrollPassenger withU2 "T1" (some (enrollData "U3"))).1

/-- The store after `U1` starts `T1` at time 0. -/
def withStarted : Store := (Server.startTrip withU3 0 "T1" "U1").1

end Scenario

/-! # Theorems -/

/-! ## Lemmas on time and machine integers -/

theorem timeUntil_lt_iff (now t : Time) (d : Duration) (hlo : minDuration < d)
    (hhi : d ≤ maxDuration) : timeUntil now t < d ↔ t - now < d := by
  unfold timeUntil timeSub
  unfold minDuration maxDuration at *
  unfold Time Duration at *
  split_ifs <;> omega

theorem timeUntil_lt_thirty (now t : Time) :
    timeUntil now t < 30 * Minute ↔ t < now + 30 * Minute := by
  rw [timeUntil_lt_iff now t (30 * Minute) (by decide) (by decide)]
  unfold Minute Second Time Duration at *
  omega

theorem timeUntil_lt_neg_thirty (now t : Time) :
    timeUntil now t < -30 * Minute ↔ t + 30 * Minute < now := by
  rw [timeUntil_lt_iff now t (-30 * Minute) (by decide) (by decide)]
  unfold Minute Second Time Duration at *
  omega

theorem wrapInt_of_inIntRange (x : Int) (h : inIntRange x) : wrapInt x = x := by
  unfold inIntRange at h
  unfold wrapInt
  omega

theorem alreadyEnrolled_iff (userID : String) (l : List String) :
    Server.alreadyEnrolled userID l = true ↔ userID ∈ l := by
  induction l with
  | nil => simp [Server.alreadyEnrolled]
  | cons p ps ih =>
    unfold Server.alreadyEnrolled
    by_cases h : p = userID
    · simp [h]
    · simp [h, ih, Ne.symm h]

/-! ## Starting a trip -/

theorem Server.startTrip_window (s : Store) (now : Time) (tripID : String) (trip : Trip)
    (hstored : s.trips tripID = some trip) (hunstarted : trip.Started = false)
    (hpassengers : trip.EnrolledPassengers ≠ []) :
    Server.startTrip s now tripID trip.CarOwnerID =
      if trip.StartTime < now + 30 * Minute then
        (s, ⟨StatusBadRequest,
          .text "Error - Trip cannot be started more than 30 minutes after scheduled time"⟩)
      else
        ({ s with trips := mapSet s.trips tripID { trip with Started := true } },
          ⟨StatusAccepted, .text ("Trip " ++ tripID ++ " started successfully")⟩) := by
  have hlen : trip.EnrolledPassengers.length ≠ 0 := by
    simpa [List.length_eq_zero] using hpassengers
  unfold Server.startTrip
  simp only [hstored, hunstarted, hlen, timeUntil_lt_thirty, ne_eq, not_true_eq_false,
    if_false, Bool.false_eq_true]

/-- C1 (the server departs from the claim). For a stored, unstarted trip with a passenger,
started by its own car owner: the server's `startTrip` replies with the out-of-window error
exactly when `startTime < now + 30 minutes`, that is from 30 minutes BEFORE the scheduled
time on, and not when `now > startTime + 30 minutes`. At `now = startTime + 30 minutes`,
where the claim says the start succeeds, the server rejects it and stores nothing; the
console's own check (`< -30 minutes`) lets that instant pass, sends the request (for a trip
id and owner id that the URL and the header carry unchanged), and the trip stays unstarted
on the server. -/
theorem C1_server_startTrip_rejects_at_window_end (s : Store) (now nowServer : Time)
    (tripID : String) (trip : Trip)
    (hstored : s.trips tripID = some trip) (hunstarted : trip.Started = false)
    (hpassengers : trip.EnrolledPassengers ≠ []) :
    ((Server.startTrip s now tripID trip.CarOwnerID).2 =
        ⟨StatusBadRequest,
          .text "Error - Trip cannot be started more than 30 minutes after scheduled time"⟩
      ↔ trip.StartTime < now + 30 * Minute)
    ∧ (now = trip.StartTime + 30 * Minute →
        Server.startTrip s now tripID trip.CarOwnerID =
          (s, ⟨StatusBadRequest,
            .text "Error - Trip cannot be started more than 30 minutes after scheduled time"⟩))
    ∧ (now = trip.StartTime + 30 * Minute → now ≤ nowServer →
        Console.plainID tripID = true → Console.plainID trip.CarOwnerID = true →
        Console.startTrip s now nowServer tripID trip.CarOwnerID =
          some (s, ["Trip " ++ tripID ++ " Information:",
            " - Started: false",
            " - Enrolled Passengers: " ++ Console.fmtStrings trip.EnrolledPassengers,
            "Error starting trip: 400 Bad Request",
            "Trip started successfully."])) := by
  have hsrv := Server.startTrip_window s now tripID trip hstored hunstarted hpassengers
  refine ⟨?_, ?_, ?_⟩
  · rw [hsrv]
    by_cases h : trip.StartTime < now + 30 * Minute
    · simp [h]
    · simp [h, StatusBadRequest, StatusAccepted]
  · intro hnow
    rw [hsrv, if_pos]
    rw [hnow]
    unfold Minute Second Time Duration at *
    omega
  · intro hnow hle hplain hplainOwner
    have hlen : trip.EnrolledPassengers.length ≠ 0 := by
      simpa [List.length_eq_zero] using hpassengers
    have hlate : trip.StartTime < nowServer + 30 * Minute := by
      unfold Minute Second Time Duration at *
      omega
    have hnotlate : -(30 * Minute) ≤ timeUntil now trip.StartTime := by
      have h := timeUntil_lt_neg_thirty now trip.StartTime
      have hn : ¬ (timeUntil now trip.StartTime < -30 * Minute) := by
        rw [h]
        unfold Minute Second Time Duration at *
        omega
      unfold Minute Second Time Duration at *
      omega
    have hsrv2 := Server.startTrip_window s nowServer tripID trip hstored hunstarted hpassengers
    rw [if_pos hlate] at hsrv2
    simp [Console.startTrip, Console.tripExists, Console.pathID, Console.headerValue, hplain,
      hplainOwner, Server.getTrip, hstored, hunstarted, hlen, hnotlate,
      Console.startTripOnServer, hsrv2, StatusOK, StatusBadRequest, StatusAccepted,
      statusLine, Console.fmtBool]

/-- Instance in the scenario: `T1` starts at minute 60 and `U1` asks to start it at minute 90. -/
theorem C1_server_startTrip_rejects_at_window_end_witness :
    Server.startTrip Scenario.withU2 (90 * Minute) "T1" "U1" =
      (Scenario.withU2, ⟨StatusBadRequest,
        .text "Error - Trip cannot be started more than 30 minutes after scheduled time"⟩) :=
  (C1_server_startTrip_rejects_at_window_end Scenario.withU2 (90 * Minute) (90 * Minute) "T1"
    { Scenario.tripT1 (60 * Minute) with AvailableSeats := 2, EnrolledPassengers := ["U2"] }
    (by rfl) (by rfl) (by decide)).2.1 (by decide)

/-! ## Enrolling -/

/-- C2 (the server departs from the claim). A successful `enrollPassenger` appends the user
and stores the trip with the `AvailableSeats` it had: the count is not recomputed. Whenever
the count was consistent before and a seat was free, it is inconsistent afterwards (with
`totalSeats = 2` and no passenger, enrolling `U2` leaves `AvailableSeats = 2`, not 1). -/
theorem C2_enrollPassenger_leaves_availableSeats (s : Store) (tripID userID : String)
    (trip : Trip) (data : String → Option String)
    (hstored : s.trips tripID = some trip) (hdata : data "user_id" = some userID)
    (hnew : userID ∉ trip.EnrolledPassengers)
    (hconsistent : trip.AvailableSeats =
      max 0 (trip.TotalSeats - (trip.EnrolledPassengers.length : Int)))
    (hfree : (trip.EnrolledPassengers.length : Int) < trip.TotalSeats) :
    (Server.enrollPassenger s tripID (some data)).2.status = StatusAccepted
    ∧ ∃ after, (Server.enrollPassenger s tripID (some data)).1.trips tripID = some after
      ∧ after.EnrolledPassengers = trip.EnrolledPassengers ++ [userID]
      ∧ after.TotalSeats = trip.TotalSeats
      ∧ after.AvailableSeats = trip.AvailableSeats
      ∧ after.AvailableSeats ≠
          max 0 (after.TotalSeats - (after.EnrolledPassengers.length : Int)) := by
  have hnot : Server.alreadyEnrolled userID trip.EnrolledPassengers = false := by
    rw [← Bool.not_eq_true, alreadyEnrolled_iff]
    exact hnew
  refine ⟨by simp [Server.enrollPassenger, hdata, hstored, hnot], ?_⟩
  refine ⟨{ trip with EnrolledPassengers := trip.EnrolledPassengers ++ [userID] }, ?_,
    rfl, rfl, rfl, ?_⟩
  · simp [Server.enrollPassenger, hdata, hstored, hnot, mapSet]
  · simp only [List.length_append, List.length_singleton, hconsistent]
    push_cast
    omega

/-- Instance in the scenario: `U2` enrolls in the fresh `T1`, which has two seats. -/
theorem C2_enrollPassenger_leaves_availableSeats_witness :
    (Server.enrollPassenger Scenario.withTrip "T1" (some (Scenario.enrollData "U2"))).2.status
        = StatusAccepted
    ∧ ∃ after, (Server.enrollPassenger Scenario.withTrip "T1"
          (some (Scenario.enrollData "U2"))).1.trips "T1" = some after
      ∧ after.EnrolledPassengers = [] ++ ["U2"]
      ∧ after.TotalSeats = 2
      ∧ after.AvailableSeats = 2
      ∧ after.AvailableSeats ≠
          max 0 (after.TotalSeats - (after.EnrolledPassengers.length : Int)) :=
  C2_enrollPassenger_leaves_availableSeats Scenario.withTrip "T1" "U2"
    { Scenario.tripT1 (60 * Minute) with AvailableSeats := 2 } (Scenario.enrollData "U2")
    (by rfl) (by rfl) (by decide) (by decide) (by decide)

/-! ## The started flag -/

theorem mapSet_same {α : Type} (m : String → Option α) (k : String) (v : α) :
    mapSet m k v k = some v := by
  simp [mapSet]

theorem mapSet_other {α : Type} (m : String → Option α) (k j : String) (v : α) (h : j ≠ k) :
    mapSet m k v j = m j := by
  simp [mapSet, h]

/-- C3 (counterexample). In the scenario, after `U1` started `T1`, an update request for
`T1` whose payload carries `started = false` is accepted and the stored trip is unstarted
again. -/
theorem C3_update_reverts_started :
    (∃ t, Scenario.withStarted.trips "T1" = some t ∧ t.Started = true)
    ∧ (Server.createOrUpdateTrip Scenario.withStarted 0 .PUT "T1"
        (some (Scenario.tripT1 (60 * Minute)))).2.status = StatusAccepted
    ∧ ∃ t, (Server.createOrUpdateTrip Scenario.withStarted 0 .PUT "T1"
        (some (Scenario.tripT1 (60 * Minute)))).1.trips "T1" = some t ∧ t.Started = false :=
  ⟨⟨_, rfl, rfl⟩, by decide, ⟨_, rfl, rfl⟩⟩

/-- C3 (amended). For a stored trip with `started = true`: after `enrollPassenger` and after
`startTrip`, with any input, the trip is still stored with `started = true`; after
`createOrUpdateTrip` it is still stored, with `started = true` when the request is for
another id, is rejected, or carries `started = true` in its payload; an accepted request for
the trip's own id stores the `started` value of its payload. -/
theorem C3_started_kept_except_by_update_payload (s : Store) (now : Time) (tripID : String)
    (trip : Trip) (hstored : s.trips tripID = some trip) (hstarted : trip.Started = true) :
    (∀ id payload, ∃ t, (Server.enrollPassenger s id payload).1.trips tripID = some t
        ∧ t.Started = true)
    ∧ (∀ id caller, ∃ t, (Server.startTrip s now id caller).1.trips tripID = some t
        ∧ t.Started = true)
    ∧ (∀ method id payload,
        (id ≠ tripID ∨ (Server.createOrUpdateTrip s now method id payload).2.status
            ≠ StatusAccepted ∨ ∃ p, payload = some p ∧ p.Started = true) →
        ∃ t, (Server.createOrUpdateTrip s now method id payload).1.trips tripID = some t
          ∧ t.Started = true)
    ∧ (∀ method p,
        (Server.createOrUpdateTrip s now method tripID (some p)).2.status = StatusAccepted →
        ∃ t, (Server.createOrUpdateTrip s now method tripID (some p)).1.trips tripID = some t
          ∧ t.Started = p.Started) := by
  refine ⟨?_, ?_, ?_, ?_⟩
  · intro id payload
    unfold Server.enrollPassenger
    split
    · exact ⟨trip, hstored, hstarted⟩
    · split
      · exact ⟨trip, hstored, hstarted⟩
      · split
        · rename_i found hfound
          split
          · exact ⟨trip, hstored, hstarted⟩
          · by_cases hid : tripID = id
            · subst hid
              rw [hstored] at hfound
              cases hfound
              exact ⟨_, mapSet_same _ _ _, hstarted⟩
            · exact ⟨trip, by simp [mapSet, hid, hstored], hstarted⟩
        · exact ⟨trip, hstored, hstarted⟩
  · intro id caller
    unfold Server.startTrip
    split
    · exact ⟨trip, hstored, hstarted⟩
    · rename_i found hfound
      split_ifs
      · exact ⟨trip, hstored, hstarted⟩
      · exact ⟨trip, hstored, hstarted⟩
      · exact ⟨trip, hstored, hstarted⟩
      · exact ⟨trip, hstored, hstarted⟩
      · by_cases hid : tripID = id
        · subst hid
          exact ⟨_, mapSet_same _ _ _, rfl⟩
        · exact ⟨trip, by simp [mapSet, hid, hstored], hstarted⟩
  · intro method id payload hcase
    unfold Server.createOrUpdateTrip at hcase ⊢
    split at hcase
    · exact ⟨trip, hstored, hstarted⟩
    · rename_i p
      split at hcase
      · exact ⟨trip, hstored, hstarted⟩
      · split_ifs at hcase ⊢
        · exact ⟨trip, hstored, hstarted⟩
        · exact ⟨trip, hstored, hstarted⟩
        · exact ⟨trip, hstored, hstarted⟩
        · rcases hcase with hid | hst | ⟨q, hq, hqs⟩
          · exact ⟨trip, by simp [mapSet, Ne.symm hid, hstored], hstarted⟩
          · exact absurd rfl hst
          · cases hq
            by_cases hid : tripID = id
            · subst hid
              exact ⟨_, mapSet_same _ _ _, hqs⟩
            · exact ⟨trip, by simp [mapSet, hid, hstored], hstarted⟩
  · intro method p hacc
    unfold Server.createOrUpdateTrip at hacc ⊢
    simp only at hacc ⊢
    split at hacc
    · simp [StatusNotFound, StatusAccepted] at hacc
    · split_ifs at hacc ⊢
      · simp [StatusBadRequest, StatusAccepted] at hacc
      · simp [StatusBadRequest, StatusAccepted] at hacc
      · simp [StatusBadRequest, StatusAccepted] at hacc
      · exact ⟨_, mapSet_same _ _ _, rfl⟩

/-- Instance in the scenario: `U4` enrolls in the started `T1`. -/
theorem C3_started_kept_except_by_update_payload_witness :
    ∃ t, (Server.enrollPassenger Scenario.withStarted "T1"
        (some (Scenario.enrollData "U4"))).1.trips "T1" = some t ∧ t.Started = true :=
  (C3_started_kept_except_by_update_payload Scenario.withStarted 0 "T1"
    { Scenario.tripT1 (60 * Minute) with
      AvailableSeats := 2, EnrolledPassengers := ["U2", "U3"], Started := true }
    (by rfl) (by rfl)).1 "T1" (some (Scenario.enrollData "U4"))

/-! ## Errors leave the store alone -/

/-- C4. Whenever `createOrUpdateUser`, `createOrUpdateTrip`, `enrollPassenger` or `startTrip`
replies with a status other than 202 Accepted, the store it returns (both maps) is the store
it was called on. -/
theorem C4_error_leaves_store_unchanged (s : Store) (now : Time) (method : Method)
    (id caller : String) (userPayload : Option User) (tripPayload : Option Trip)
    (enrollPayload : Option (String → Option String)) :
    ((Server.createOrUpdateUser s now method id userPayload).2.status ≠ StatusAccepted →
      (Server.createOrUpdateUser s now method id userPayload).1 = s)
    ∧ ((Server.createOrUpdateTrip s now method id tripPayload).2.status ≠ StatusAccepted →
      (Server.createOrUpdateTrip s now method id tripPayload).1 = s)
    ∧ ((Server.enrollPassenger s id enrollPayload).2.status ≠ StatusAccepted →
      (Server.enrollPassenger s id enrollPayload).1 = s)
    ∧ ((Server.startTrip s now id caller).2.status ≠ StatusAccepted →
      (Server.startTrip s now id caller).1 = s) := by
  refine ⟨?_, ?_, ?_, ?_⟩
  · intro h
    cases userPayload with
    | none => rfl
    | some decoded =>
      simp only [Server.createOrUpdateUser] at h ⊢
      split_ifs at h ⊢ <;> first | rfl | exact absurd rfl h
  · unfold Server.createOrUpdateTrip
    intro h
    split at h
    · rfl
    · split at h
      · rfl
      · split_ifs at h ⊢
        · rfl
        · rfl
        · rfl
        · exact absurd rfl h
  · unfold Server.enrollPassenger
    intro h
    split at h
    · rfl
    · split at h
      · rfl
      · split at h
        · split_ifs at h ⊢
          · rfl
          · exact absurd rfl h
        · rfl
  · unfold Server.startTrip
    intro h
    split at h
    · rfl
    · split_ifs at h ⊢
      · rfl
      · rfl
      · rfl
      · rfl
      · exact absurd rfl h

/-- Instance in the scenario: an owner without plate, a trip starting too early, a second enrollment of `U2` and a start by a stranger are all rejected. -/
theorem C4_error_leaves_store_unchanged_witness :
    (Server.createOrUpdateUser Scenario.withU2 0 .PUT "T1"
        (some { Scenario.ownerU1 with CarPlateNumber := "" })).1 = Scenario.withU2
    ∧ (Server.createOrUpdateTrip Scenario.withU2 0 .PUT "T1"
        (some (Scenario.tripT1 (29 * Minute)))).1 = Scenario.withU2
    ∧ (Server.enrollPassenger Scenario.withU2 "T1"
        (some (Scenario.enrollData "U2"))).1 = Scenario.withU2
    ∧ (Server.startTrip Scenario.withU2 0 "T1" "U9").1 = Scenario.withU2 :=
  have h := C4_error_leaves_store_unchanged Scenario.withU2 0 .PUT "T1" "U9"
    (some { Scenario.ownerU1 with CarPlateNumber := "" })
    (some (Scenario.tripT1 (29 * Minute))) (some (Scenario.enrollData "U2"))
  ⟨h.1 (by decide), h.2.1 (by decide), h.2.2.1 (by decide), h.2.2.2 (by decide)⟩

/-! ## Enrolling twice -/

theorem Server.enrollPassenger_new (s : Store) (tripID userID : String) (trip : Trip)
    (data : String → Option String) (hstored : s.trips tripID = some trip)
    (hdata : data "user_id" = some userID) (hnew : userID ∉ trip.EnrolledPassengers) :
    Server.enrollPassenger s tripID (some data) =
      ({ s with
          trips := mapSet s.trips tripID
            { trip with EnrolledPassengers := trip.EnrolledPassengers ++ [userID] } },
        ⟨StatusAccepted,
          .text ("User " ++ userID ++ " enrolled in trip " ++ tripID ++ " successfully")⟩) := by
  have hnot : Server.alreadyEnrolled userID trip.EnrolledPassengers = false := by
    rw [← Bool.not_eq_true, alreadyEnrolled_iff]
    exact hnew
  simp [Server.enrollPassenger, hdata, hstored, hnot]

theorem Server.enrollPassenger_again (s : Store) (tripID userID : String) (trip : Trip)
    (data : String → Option String) (hstored : s.trips tripID = some trip)
    (hdata : data "user_id" = some userID) (hold : userID ∈ trip.EnrolledPassengers) :
    Server.enrollPassenger s tripID (some data) =
      (s, ⟨StatusBadRequest, .text "Error - User already enrolled in this trip"⟩) := by
  have hyes : Server.alreadyEnrolled userID trip.EnrolledPassengers = true :=
    (alreadyEnrolled_iff _ _).2 hold
  simp [Server.enrollPassenger, hdata, hstored, hyes]

/-- C5. For a stored trip and a `userID` not among its passengers, two `enrollPassenger`
calls in a row for `(tripID, userID)`: the first is accepted and stores the trip with
`userID` appended at the end of the list; the second replies 400 with `User already enrolled
in this trip` and changes nothing, so the final list is one element longer than the original.
The duplicate test is equality of strings: any other identifier that is not yet a passenger
is still accepted afterwards. -/
theorem C5_enroll_twice_conflict (s : Store) (tripID userID : String) (trip : Trip)
    (data : String → Option String) (hstored : s.trips tripID = some trip)
    (hdata : data "user_id" = some userID) (hnew : userID ∉ trip.EnrolledPassengers) :
    (Server.enrollPassenger s tripID (some data)).2 =
        ⟨StatusAccepted,
          .text ("User " ++ userID ++ " enrolled in trip " ++ tripID ++ " successfully")⟩
    ∧ (Server.enrollPassenger s tripID (some data)).1.trips tripID =
        some { trip with EnrolledPassengers := trip.EnrolledPassengers ++ [userID] }
    ∧ Server.enrollPassenger (Server.enrollPassenger s tripID (some data)).1 tripID (some data)
        = ((Server.enrollPassenger s tripID (some data)).1,
            ⟨StatusBadRequest, .text "Error - User already enrolled in this trip"⟩)
    ∧ (∃ final,
        (Server.enrollPassenger (Server.enrollPassenger s tripID (some data)).1 tripID
          (some data)).1.trips tripID = some final
        ∧ final.EnrolledPassengers = trip.EnrolledPassengers ++ [userID]
        ∧ final.EnrolledPassengers.length = trip.EnrolledPassengers.length + 1)
    ∧ (∀ (other : String) (otherData : String → Option String),
        otherData "user_id" = some other → other ≠ userID →
        other ∉ trip.EnrolledPassengers →
        (Server.enrollPassenger (Server.enrollPassenger s tripID (some data)).1 tripID
          (some otherData)).2.status = StatusAccepted) := by
  have hfirst := Server.enrollPassenger_new s tripID userID trip data hstored hdata hnew
  have hafter : (Server.enrollPassenger s tripID (some data)).1.trips tripID =
      some { trip with EnrolledPassengers := trip.EnrolledPassengers ++ [userID] } := by
    rw [hfirst]
    exact mapSet_same _ _ _
  have hsecond := Server.enrollPassenger_again (Server.enrollPassenger s tripID (some data)).1
    tripID userID _ data hafter hdata (by simp)
  refine ⟨by rw [hfirst], hafter, hsecond, ?_, ?_⟩
  · refine ⟨{ trip with EnrolledPassengers := trip.EnrolledPassengers ++ [userID] }, ?_, rfl,
      List.length_append _ _⟩
    rw [hsecond]
    exact hafter
  · intro other otherData hother hne hnotin
    rw [Server.enrollPassenger_new _ tripID other _ otherData hafter hother
      (by simp [hnotin, hne])]

/-- Instance in the scenario: `U3` enrolls twice in `T1`. -/
theorem C5_enroll_twice_conflict_witness :
    Server.enrollPassenger
        (Server.enrollPassenger Scenario.withU2 "T1" (some (Scenario.enrollData "U3"))).1 "T1"
        (some (Scenario.enrollData "U3"))
      = ((Server.enrollPassenger Scenario.withU2 "T1" (some (Scenario.enrollData "U3"))).1,
          ⟨StatusBadRequest, .text "Error - User already enrolled in this trip"⟩) :=
  (C5_enroll_twice_conflict Scenario.withU2 "T1" "U3"
    { Scenario.tripT1 (60 * Minute) with AvailableSeats := 2, EnrolledPassengers := ["U2"] }
    (Scenario.enrollData "U3") (by rfl) (by rfl) (by decide)).2.2.1

/-! ## Creating and updating a trip -/

theorem Server.createOrUpdateTrip_eligible (s : Store) (now : Time) (method : Method)
    (tripID : String) (p : Trip) (owner : User)
    (howner : s.users p.CarOwnerID = some owner) (hflag : owner.IsCarOwner = true)
    (hlicense : owner.DriverLicense ≠ "") (hplate : owner.CarPlateNumber ≠ "") :
    Server.createOrUpdateTrip s now method tripID (some p) =
      if p.StartTime < now + 30 * Minute then
        (s, ⟨StatusBadRequest,
          .text "Error - Trips must be scheduled at least 30 minutes in the future"⟩)
      else
        ({ s with
            trips := mapSet s.trips tripID
              { p with
                EnrolledPassengers := Server.keptPassengers (s.trips tripID) p
                AvailableSeats :=
                  Server.seatsLeft p.TotalSeats (Server.keptPassengers (s.trips tripID) p) } },
          ⟨StatusAccepted,
            .text ("Trip " ++ method.name ++ " " ++ tripID ++ " successfully")⟩) := by
  have hl : (owner.DriverLicense == "") = false := by simpa using hlicense
  have hp : (owner.CarPlateNumber == "") = false := by simpa using hplate
  unfold Server.createOrUpdateTrip
  simp only [howner, hflag, timeUntil_lt_thirty, hl, hp, Bool.not_true, Bool.false_eq_true,
    if_false, Bool.or_self, Bool.and_false]

theorem Server.seatsLeft_eq_max (totalSeats : Int) (passengers : List String)
    (hlo : -(2 ^ 63) ≤ totalSeats - (passengers.length : Int))
    (hhi : totalSeats - (passengers.length : Int) < 2 ^ 63) :
    Server.seatsLeft totalSeats passengers = max 0 (totalSeats - (passengers.length : Int)) := by
  unfold Server.seatsLeft
  simp only [wrapInt_of_inIntRange _ ⟨hlo, hhi⟩]
  split_ifs <;> omega

/-- C6 (counterexample). In the scenario, a creation request for the absent id `T1` that
passes every check and whose payload carries a passenger and `started = true` stores a trip
with that passenger, started, and one seat left out of two. -/
theorem C6_creation_stores_payload_passengers_and_started :
    Scenario.withOwner.trips "T1" = none
    ∧ (Server.createOrUpdateTrip Scenario.withOwner 0 .POST "T1"
        (some { Scenario.tripT1 (60 * Minute) with
          EnrolledPassengers := ["U7"], Started := true })).2.status = StatusAccepted
    ∧ ∃ t, (Server.createOrUpdateTrip Scenario.withOwner 0 .POST "T1"
        (some { Scenario.tripT1 (60 * Minute) with
          EnrolledPassengers := ["U7"], Started := true })).1.trips "T1" = some t
      ∧ t.TotalSeats = 2 ∧ t.AvailableSeats = 1 ∧ t.EnrolledPassengers = ["U7"]
      ∧ t.Started = true :=
  ⟨rfl, by decide, _, rfl, rfl, rfl, rfl, rfl⟩

/-- C6 (amended). For a creation request that passes validation (no trip stored under the
id, the car owner stored, flagged and with license and plate, `startTime ≥ now + 30 minutes`,
`totalSeats` a Go `int` that is `≥ 0`, the payload's list of a length a Go slice can have),
the request is accepted and the trip stored under the id has the `enrolledPassengers` and
`started` of the payload and
`availableSeats = max(0, totalSeats - len(enrolledPassengers))`; when the payload carries no
passenger and `started = false`, as the console sends it, this is
`availableSeats = totalSeats`, `enrolledPassengers = []`, `started = false`, whatever the
other fields. -/
theorem C6_created_trip_fields (s : Store) (now : Time) (method : Method) (tripID : String)
    (p : Trip) (owner : User) (habsent : s.trips tripID = none)
    (howner : s.users p.CarOwnerID = some owner) (hflag : owner.IsCarOwner = true)
    (hlicense : owner.DriverLicense ≠ "") (hplate : owner.CarPlateNumber ≠ "")
    (hschedule : now + 30 * Minute ≤ p.StartTime) (hseats : 0 ≤ p.TotalSeats)
    (hint : inIntRange p.TotalSeats)
    (hlen : (p.EnrolledPassengers.length : Int) < 2 ^ 63) :
    (Server.createOrUpdateTrip s now method tripID (some p)).2.status = StatusAccepted
    ∧ ∃ t, (Server.createOrUpdateTrip s now method tripID (some p)).1.trips tripID = some t
      ∧ t.TotalSeats = p.TotalSeats
      ∧ t.EnrolledPassengers = p.EnrolledPassengers
      ∧ t.Started = p.Started
      ∧ t.AvailableSeats = max 0 (p.TotalSeats - (p.EnrolledPassengers.length : Int))
      ∧ (p.EnrolledPassengers = [] → p.Started = false →
          t.AvailableSeats = t.TotalSeats ∧ t.EnrolledPassengers = [] ∧ t.Started = false) := by
  have hnot : ¬ (p.StartTime < now + 30 * Minute) := not_lt.mpr hschedule
  have hrun := Server.createOrUpdateTrip_eligible s now method tripID p owner howner hflag
    hlicense hplate
  rw [if_neg hnot] at hrun
  have hseatsLeft : Server.seatsLeft p.TotalSeats p.EnrolledPassengers =
      max 0 (p.TotalSeats - (p.EnrolledPassengers.length : Int)) := by
    unfold inIntRange at hint
    apply Server.seatsLeft_eq_max <;> omega
  rw [hrun]
  refine ⟨rfl, _, mapSet_same _ _ _, rfl, ?_, rfl, ?_, ?_⟩
  · simp [habsent, Server.keptPassengers]
  · simp only [habsent, Server.keptPassengers]
    exact hseatsLeft
  · intro hnone hfalse
    simp only [habsent, Server.keptPassengers]
    refine ⟨?_, hnone, hfalse⟩
    rw [hseatsLeft, hnone]
    simp [hseats]

/-- Instance in the scenario: the creation of `T1` as the console sends it. -/
theorem C6_created_trip_fields_witness :
    (Server.createOrUpdateTrip Scenario.withOwner 0 .POST "T1"
        (some (Scenario.tripT1 (60 * Minute)))).2.status = StatusAccepted
    ∧ ∃ t, (Server.createOrUpdateTrip Scenario.withOwner 0 .POST "T1"
        (some (Scenario.tripT1 (60 * Minute)))).1.trips "T1" = some t
      ∧ t.TotalSeats = 2
      ∧ t.EnrolledPassengers = []
      ∧ t.Started = false
      ∧ t.AvailableSeats = max 0 (2 - ((([] : List String).length : Nat) : Int))
      ∧ (([] : List String) = [] → false = false →
          t.AvailableSeats = t.TotalSeats ∧ t.EnrolledPassengers = [] ∧ t.Started = false) :=
  C6_created_trip_fields Scenario.withOwner 0 .POST "T1" (Scenario.tripT1 (60 * Minute))
    Scenario.ownerU1 (by rfl) (by rfl) (by rfl) (by decide) (by decide) (by decide)
    (by decide) (by decide) (by decide)

theorem Console.createNewTrip_eligible (s : Store) (now nowServer : Time) (tripID : String)
    (input : Console.TripInput) (owner : User) (startTime : Time) (totalSeats : Int)
    (hplain : Console.plainID tripID = true)
    (hplainOwner : Console.plainID input.carOwnerID = true)
    (habsent : s.trips tripID = none) (howner : s.users input.carOwnerID = some owner)
    (hflag : owner.IsCarOwner = true) (hlicense : owner.DriverLicense ≠ "")
    (hplate : owner.CarPlateNumber ≠ "") (hstart : input.startTime = some startTime)
    (hseats : input.totalSeats = some totalSeats) :
    Console.createNewTrip s now nowServer tripID input =
      if startTime < now + 30 * Minute then
        some (s, ["Error - Trips must be scheduled at least 30 minutes in the future"])
      else if startTime < nowServer + 30 * Minute then
        some (s, ["Error - Trips must be scheduled at least 30 minutes in the future"])
      else
        some ({ s with
            trips := mapSet s.trips tripID
              { Console.newTripPayload tripID input startTime totalSeats with
                AvailableSeats := Server.seatsLeft totalSeats [] } },
          ["Trip POST " ++ tripID ++ " successfully"]) := by
  have hl : (owner.DriverLicense == "") = false := by simpa using hlicense
  have hp : (owner.CarPlateNumber == "") = false := by simpa using hplate
  have hpost := Server.createOrUpdateTrip_eligible s nowServer .POST tripID
    (Console.newTripPayload tripID input startTime totalSeats) owner howner hflag
    hlicense hplate
  have hconsole : Console.createNewTrip s now nowServer tripID input =
      if startTime < now + 30 * Minute then
        some (s, ["Error - Trips must be scheduled at least 30 minutes in the future"])
      else
        some ((Server.createOrUpdateTrip s nowServer .POST tripID
            (some (Console.newTripPayload tripID input startTime totalSeats))).1,
          [Console.printBody (Server.createOrUpdateTrip s nowServer .POST tripID
            (some (Console.newTripPayload tripID input startTime totalSeats))).2.body]) := by
    by_cases hearly : startTime < now + 30 * Minute
    · simp [Console.createNewTrip, Console.tripExists, Console.userExists, Console.pathID,
        hplain, hplainOwner, Server.getTrip, Server.getUser, habsent, howner, hflag, hl, hp,
        hstart, timeBefore, timeAdd, hearly, StatusOK, StatusNotFound]
    · simp [Console.createNewTrip, Console.tripExists, Console.userExists, Console.pathID,
        hplain, hplainOwner, Server.getTrip, Server.getUser, habsent, howner, hflag, hl, hp,
        hstart, hseats, timeBefore, timeAdd, hearly, StatusOK, StatusNotFound]
  rw [hconsole, hpost]
  have hpayload : (Console.newTripPayload tripID input startTime totalSeats).StartTime
      = startTime := rfl
  rw [hpayload]
  by_cases hearly : startTime < now + 30 * Minute
  · simp [hearly]
  · by_cases hlate : startTime < nowServer + 30 * Minute
    · simp [hearly, hlate, Console.printBody]
    · simp [hearly, hlate, Console.printBody, Method.name, String.append_assoc, habsent,
        Server.keptPassengers, Console.newTripPayload]

/-- C7. For a request whose car owner is stored, flagged and has license and plate, the
server's `createOrUpdateTrip` replies with the schedule error exactly when
`startTime < now + 30 minutes`, and then stores nothing: it is rejected at
`startTime = now + 29 min 59 s` and accepted and stored at `startTime = now + 30 min`. The
console's `createNewTrip` makes the same test on its own clock reading `now` before it sends
anything: for an absent trip id, an eligible owner (both ids such that the URL carries them
unchanged) and well-typed answers, it prints the schedule error and stores nothing when
`startTime < now + 30 minutes`, whatever the server's clock reading `nowServer`; when
`startTime ≥ now + 30 minutes` it sends the POST, and the server applies its own test at
`nowServer`: the schedule error and nothing stored when `startTime < nowServer + 30
minutes`, the trip stored otherwise. -/
theorem C7_lead_time_boundary (s : Store) (now : Time) (method : Method) (tripID : String)
    (p : Trip) (owner : User)
    (howner : s.users p.CarOwnerID = some owner) (hflag : owner.IsCarOwner = true)
    (hlicense : owner.DriverLicense ≠ "") (hplate : owner.CarPlateNumber ≠ "") :
    ((Server.createOrUpdateTrip s now method tripID (some p)).2 =
        ⟨StatusBadRequest,
          .text "Error - Trips must be scheduled at least 30 minutes in the future"⟩
      ↔ p.StartTime < now + 30 * Minute)
    ∧ (p.StartTime < now + 30 * Minute →
        (Server.createOrUpdateTrip s now method tripID (some p)).1 = s)
    ∧ Server.createOrUpdateTrip s now method tripID
        (some { p with StartTime := now + 29 * Minute + 59 * Second }) =
          (s, ⟨StatusBadRequest,
            .text "Error - Trips must be scheduled at least 30 minutes in the future"⟩)
    ∧ ((Server.createOrUpdateTrip s now method tripID
          (some { p with StartTime := now + 30 * Minute })).2 =
        ⟨StatusAccepted, .text ("Trip " ++ method.name ++ " " ++ tripID ++ " successfully")⟩
      ∧ ∃ t, (Server.createOrUpdateTrip s now method tripID
          (some { p with StartTime := now + 30 * Minute })).1.trips tripID = some t
        ∧ t.StartTime = now + 30 * Minute)
    ∧ (∀ (nowServer : Time) (input : Console.TripInput) (startTime : Time) (totalSeats : Int),
        Console.plainID tripID = true → Console.plainID input.carOwnerID = true →
        s.trips tripID = none → input.carOwnerID = p.CarOwnerID →
        input.startTime = some startTime → input.totalSeats = some totalSeats →
        (startTime < now + 30 * Minute →
          Console.createNewTrip s now nowServer tripID input =
            some (s, ["Error - Trips must be scheduled at least 30 minutes in the future"]))
        ∧ (now + 30 * Minute ≤ startTime → startTime < nowServer + 30 * Minute →
          Console.createNewTrip s now nowServer tripID input =
            some (s, ["Error - Trips must be scheduled at least 30 minutes in the future"]))
        ∧ (now + 30 * Minute ≤ startTime → nowServer + 30 * Minute ≤ startTime →
          ∃ after t, Console.createNewTrip s now nowServer tripID input =
              some (after, ["Trip POST " ++ tripID ++ " successfully"])
            ∧ after.trips tripID = some t ∧ t.StartTime = startTime)) := by
  have hrun := fun q hq =>
    Server.createOrUpdateTrip_eligible s now method tripID q owner hq hflag hlicense hplate
  refine ⟨?_, ?_, ?_, ⟨?_, ?_⟩, ?_⟩
  · rw [hrun p howner]
    by_cases h : p.StartTime < now + 30 * Minute
    · simp [h]
    · simp [h, StatusBadRequest, StatusAccepted]
  · intro h
    rw [hrun p howner, if_pos h]
  · rw [hrun { p with StartTime := now + 29 * Minute + 59 * Second } howner, if_pos]
    show now + 29 * Minute + 59 * Second < now + 30 * Minute
    unfold Minute Second Time Duration at *
    omega
  · rw [hrun { p with StartTime := now + 30 * Minute } howner, if_neg (lt_irrefl _)]
  · rw [hrun { p with StartTime := now + 30 * Minute } howner, if_neg (lt_irrefl _)]
    exact ⟨_, mapSet_same _ _ _, rfl⟩
  · intro nowServer input startTime totalSeats hplain hplainOwner habsent hid hstart hseats
    have hownerIn : s.users input.carOwnerID = some owner := by rw [hid]; exact howner
    have hconsole := Console.createNewTrip_eligible s now nowServer tripID input owner
      startTime totalSeats hplain hplainOwner habsent hownerIn hflag hlicense hplate hstart
      hseats
    refine ⟨?_, ?_, ?_⟩
    · intro hearly
      rw [hconsole, if_pos hearly]
    · intro hok hlate
      rw [hconsole, if_neg (not_lt.mpr hok), if_pos hlate]
    · intro hok hokServer
      rw [hconsole, if_neg (not_lt.mpr hok), if_neg (not_lt.mpr hokServer)]
      exact ⟨_, _, rfl, mapSet_same _ _ _, rfl⟩

/-- Instance in the scenario: `T1` asked at time 0 for 29 min 59 s later, of the server and
at the console (with a server whose clock is an hour behind, which would accept it). -/
theorem C7_lead_time_boundary_witness :
    Server.createOrUpdateTrip Scenario.withOwner 0 .POST "T1"
        (some { Scenario.tripT1 0 with StartTime := 0 + 29 * Minute + 59 * Second }) =
      (Scenario.withOwner, ⟨StatusBadRequest,
        .text "Error - Trips must be scheduled at least 30 minutes in the future"⟩)
    ∧ Console.createNewTrip Scenario.withOwner 0 (-(60 * Minute)) "T1"
        { carOwnerID := "U1", pickupLocation := "A", altPickupLocation := "",
          startTime := some (29 * Minute + 59 * Second), destination := "B",
          totalSeats := some 2 } =
      some (Scenario.withOwner,
        ["Error - Trips must be scheduled at least 30 minutes in the future"]) :=
  have h := C7_lead_time_boundary Scenario.withOwner 0 .POST "T1" (Scenario.tripT1 0)
    Scenario.ownerU1 (by rfl) (by rfl) (by decide) (by decide)
  ⟨h.2.2.1,
    (h.2.2.2.2 (-(60 * Minute))
      { carOwnerID := "U1", pickupLocation := "A", altPickupLocation := "",
        startTime := some (29 * Minute + 59 * Second), destination := "B",
        totalSeats := some 2 }
      (29 * Minute + 59 * Second) 2 (by decide) (by decide) (by rfl) (by rfl) (by rfl)
      (by rfl)).1 (by decide)⟩

/-! ## Cancelling -/

/-- C9 (counterexample). In the scenario, with `T1` stored and `U2` enrolled, a POST for `T1`
with another destination and start time is accepted, and the record stored under `T1` is
the payload's (with the passenger list kept), not the record that was there. -/
theorem C9_post_on_existing_id_replaces :
    Scenario.withU2.trips "T1" =
        some { Scenario.tripT1 (60 * Minute) with
          AvailableSeats := 2, EnrolledPassengers := ["U2"] }
    ∧ (Server.createOrUpdateTrip Scenario.withU2 0 .POST "T1"
        (some { Scenario.tripT1 (90 * Minute) with Destination := "C" })).2 =
          ⟨StatusAccepted, .text "Trip POST T1 successfully"⟩
    ∧ (Server.createOrUpdateTrip Scenario.withU2 0 .POST "T1"
        (some { Scenario.tripT1 (90 * Minute) with Destination := "C" })).1.trips "T1" =
          some { Scenario.tripT1 (90 * Minute) with
            Destination := "C", AvailableSeats := 1, EnrolledPassengers := ["U2"] } :=
  ⟨by rfl, by decide, by rfl⟩

/-- C9 (amended). When a trip is stored under `tripID`: the server's `createOrUpdateTrip`
has no existence check and does not look at the method, so a POST for that id is handled as
a PUT is: when the owner and schedule checks pass, the record is replaced by the payload
with the stored passenger list. The duplicate check is the console's: when `tripID` is an id
that the URL carries unchanged (letters, digits, `-`, `_`), `createNewTrip` for it prints
`Trip already exists`, sends no POST and leaves the store as it is, whatever is typed at the
other prompts. -/
theorem C9_existing_id_rejected_by_console_only (s : Store) (now nowServer : Time)
    (tripID : String) (existing : Trip) (hstored : s.trips tripID = some existing) :
    (Console.plainID tripID = true → ∀ input : Console.TripInput,
        Console.createNewTrip s now nowServer tripID input =
          some (s, ["Error - Trip already exists"]))
    ∧ (∀ payload : Option Trip,
        (Server.createOrUpdateTrip s now .POST tripID payload).1 =
          (Server.createOrUpdateTrip s now .PUT tripID payload).1
        ∧ (Server.createOrUpdateTrip s now .POST tripID payload).2.status =
          (Server.createOrUpdateTrip s now .PUT tripID payload).2.status)
    ∧ (∀ p : Trip,
        (Server.createOrUpdateTrip s now .POST tripID (some p)).2.status = StatusAccepted →
        (Server.createOrUpdateTrip s now .POST tripID (some p)).1.trips tripID =
          some { p with
            EnrolledPassengers := existing.EnrolledPassengers
            AvailableSeats := Server.seatsLeft p.TotalSeats existing.EnrolledPassengers }) := by
  refine ⟨?_, ?_, ?_⟩
  · intro hplain input
    simp [Console.createNewTrip, Console.tripExists, Console.pathID, hplain, Server.getTrip,
      hstored, StatusOK]
  · intro payload
    unfold Server.createOrUpdateTrip
    split
    · exact ⟨rfl, rfl⟩
    · split
      · exact ⟨rfl, rfl⟩
      · split_ifs <;> exact ⟨rfl, rfl⟩
  · intro p hacc
    unfold Server.createOrUpdateTrip at hacc ⊢
    simp only at hacc ⊢
    split at hacc
    · simp [StatusNotFound, StatusAccepted] at hacc
    · split_ifs at hacc ⊢
      · simp [StatusBadRequest, StatusAccepted] at hacc
      · simp [StatusBadRequest, StatusAccepted] at hacc
      · simp [StatusBadRequest, StatusAccepted] at hacc
      · simp [mapSet, hstored, Server.keptPassengers]

/-- Instance in the scenario: the console is asked to create `T1` again. -/
theorem C9_existing_id_rejected_by_console_only_witness :
    Console.createNewTrip Scenario.withU2 0 1 "T1"
        { carOwnerID := "U1", pickupLocation := "A", altPickupLocation := "",
          startTime := some (90 * Minute), destination := "C", totalSeats := some 3 } =
      some (Scenario.withU2, ["Error - Trip already exists"]) :=
  (C9_existing_id_rejected_by_console_only Scenario.withU2 0 1 "T1"
    { Scenario.tripT1 (60 * Minute) with AvailableSeats := 2, EnrolledPassengers := ["U2"] }
    (by rfl)).1 (by decide)
    { carOwnerID := "U1", pickupLocation := "A", altPickupLocation := "",
      startTime := some (90 * Minute), destination := "C", totalSeats := some 3 }

/-! ## Updating a stored trip -/

/-- C10. For a stored trip and an update request that passes validation (the car owner
stored, flagged and with license and plate, `startTime ≥ now + 30 minutes`, `totalSeats` a
Go `int` that is `≥ 0`; the stored list of a length a Go slice can have), the request is
accepted and the trip stored afterwards has the passenger list that was stored before,
whatever list the payload carries, the payload's `totalSeats`, and
`availableSeats = max(0, totalSeats - len(enrolledPassengers))`. -/
theorem C10_update_keeps_passengers (s : Store) (now : Time) (method : Method)
    (tripID : String) (existing p : Trip) (owner : User)
    (hstored : s.trips tripID = some existing)
    (howner : s.users p.CarOwnerID = some owner) (hflag : owner.IsCarOwner = true)
    (hlicense : owner.DriverLicense ≠ "") (hplate : owner.CarPlateNumber ≠ "")
    (hschedule : now + 30 * Minute ≤ p.StartTime) (hseats : 0 ≤ p.TotalSeats)
    (hint : inIntRange p.TotalSeats)
    (hlen : (existing.EnrolledPassengers.length : Int) < 2 ^ 63) :
    (Server.createOrUpdateTrip s now method tripID (some p)).2.status = StatusAccepted
    ∧ ∃ t, (Server.createOrUpdateTrip s now method tripID (some p)).1.trips tripID = some t
      ∧ t.EnrolledPassengers = existing.EnrolledPassengers
      ∧ t.TotalSeats = p.TotalSeats
      ∧ t.AvailableSeats = max 0 (p.TotalSeats - (t.EnrolledPassengers.length : Int)) := by
  have hnot : ¬ (p.StartTime < now + 30 * Minute) := not_lt.mpr hschedule
  have hrun := Server.createOrUpdateTrip_eligible s now method tripID p owner howner hflag
    hlicense hplate
  rw [if_neg hnot] at hrun
  rw [hrun]
  refine ⟨rfl, _, mapSet_same _ _ _, ?_, rfl, ?_⟩
  · simp [hstored, Server.keptPassengers]
  · simp only [hstored, Server.keptPassengers]
    unfold inIntRange at hint
    apply Server.seatsLeft_eq_max <;> omega

/-- Instance in the scenario: `T1` with `U2` and `U3` enrolled is updated to one seat by a payload listing `U9`. -/
theorem C10_update_keeps_passengers_witness :
    (Server.createOrUpdateTrip Scenario.withU3 0 .PUT "T1"
        (some { Scenario.tripT1 (90 * Minute) with
          TotalSeats := 1, EnrolledPassengers := ["U9"] })).2.status = StatusAccepted
    ∧ ∃ t, (Server.createOrUpdateTrip Scenario.withU3 0 .PUT "T1"
        (some { Scenario.tripT1 (90 * Minute) with
          TotalSeats := 1, EnrolledPassengers := ["U9"] })).1.trips "T1" = some t
      ∧ t.EnrolledPassengers = ["U2", "U3"]
      ∧ t.TotalSeats = 1
      ∧ t.AvailableSeats = max 0 (1 - (t.EnrolledPassengers.length : Int)) :=
  C10_update_keeps_passengers Scenario.withU3 0 .PUT "T1"
    { Scenario.tripT1 (60 * Minute) with AvailableSeats := 2, EnrolledPassengers := ["U2", "U3"] }
    { Scenario.tripT1 (90 * Minute) with TotalSeats := 1, EnrolledPassengers := ["U9"] }
    Scenario.ownerU1 (by rfl) (by rfl) (by rfl) (by decide) (by decide) (by decide)
    (by decide) (by decide) (by decide)

/-! ## Starting twice -/

/-- C11. Whenever the server's `startTrip` is accepted for a trip id and caller, the next
`startTrip` for the same trip id and caller, at whatever clock reading (later ones included),
replies 400 `Trip is already started` and changes nothing, and the trip is stored with
`started = true`. -/
theorem C11_second_start_rejected (s : Store) (now later : Time) (tripID carOwnerID : String)
    (hfirst : (Server.startTrip s now tripID carOwnerID).2.status = StatusAccepted) :
    Server.startTrip (Server.startTrip s now tripID carOwnerID).1 later tripID carOwnerID =
        ((Server.startTrip s now tripID carOwnerID).1,
          ⟨StatusBadRequest, .text "Error - Trip is already started"⟩)
    ∧ ∃ t, (Server.startTrip (Server.startTrip s now tripID carOwnerID).1 later tripID
          carOwnerID).1.trips tripID = some t
        ∧ t.Started = true := by
  have hstate : ∃ trip, (Server.startTrip s now tripID carOwnerID).1.trips tripID = some trip
      ∧ trip.CarOwnerID = carOwnerID ∧ trip.Started = true := by
    unfold Server.startTrip at hfirst ⊢
    split at hfirst
    · simp [StatusNotFound, StatusAccepted] at hfirst
    · rename_i trip hfound
      split_ifs at hfirst ⊢ with hown
      · simp [StatusUnauthorized, StatusAccepted] at hfirst
      · simp [StatusBadRequest, StatusAccepted] at hfirst
      · simp [StatusBadRequest, StatusAccepted] at hfirst
      · simp [StatusBadRequest, StatusAccepted] at hfirst
      · exact ⟨_, mapSet_same _ _ _, not_not.mp hown, rfl⟩
  obtain ⟨trip, hstored, hown, hstarted⟩ := hstate
  have hsecond : Server.startTrip (Server.startTrip s now tripID carOwnerID).1 later tripID
      carOwnerID = ((Server.startTrip s now tripID carOwnerID).1,
        ⟨StatusBadRequest, .text "Error - Trip is already started"⟩) := by
    generalize (Server.startTrip s now tripID carOwnerID).1 = s1 at hstored
    simp [Server.startTrip, hstored, hown, hstarted]
  exact ⟨hsecond, trip, by rw [hsecond]; exact hstored, hstarted⟩

/-- Instance in the scenario: `U1` starts `T1` at time 0 and asks again five minutes later. -/
theorem C11_second_start_rejected_witness :
    Server.startTrip (Server.startTrip Scenario.withU3 0 "T1" "U1").1 (5 * Minute) "T1" "U1" =
        ((Server.startTrip Scenario.withU3 0 "T1" "U1").1,
          ⟨StatusBadRequest, .text "Error - Trip is already started"⟩)
    ∧ ∃ t, (Server.startTrip (Server.startTrip Scenario.withU3 0 "T1" "U1").1 (5 * Minute) "T1"
          "U1").1.trips "T1" = some t
        ∧ t.Started = true :=
  C11_second_start_rejected Scenario.withU3 0 (5 * Minute) "T1" "U1" (by decide)

/-! ## Capacity -/

theorem Server.seatsLeft_nonneg (totalSeats : Int) (passengers : List String) :
    0 ≤ Server.seatsLeft totalSeats passengers := by
  unfold Server.seatsLeft
  simp only
  split_ifs <;> omega

theorem Server.seatsLeft_of_neg (totalSeats : Int) (passengers : List String)
    (hneg : totalSeats < 0)
    (hlo : -(2 ^ 63) ≤ totalSeats - (passengers.length : Int)) :
    Server.seatsLeft totalSeats passengers = 0 := by
  rw [Server.seatsLeft_eq_max totalSeats passengers hlo (by omega)]
  omega

/-- C12 (counterexample). In the scenario, a creation request for `T1` with
`totalSeats = -1` whose owner and schedule checks pass is accepted, and the trip is stored
with `totalSeats = -1` and `availableSeats = 0`. -/
theorem C12_negative_totalSeats_is_stored :
    (Server.createOrUpdateTrip Scenario.withOwner 0 .POST "T1"
        (some { Scenario.tripT1 (60 * Minute) with TotalSeats := -1 })).2 =
      ⟨StatusAccepted, .text "Trip POST T1 successfully"⟩
    ∧ (Server.createOrUpdateTrip Scenario.withOwner 0 .POST "T1"
        (some { Scenario.tripT1 (60 * Minute) with TotalSeats := -1 })).1.trips "T1" =
      some { Scenario.tripT1 (60 * Minute) with TotalSeats := -1, AvailableSeats := 0 } :=
  ⟨by decide, by rfl⟩

/-- C12 (amended). Neither the server nor the console tests the sign of `totalSeats`. A
create or update request with a negative `totalSeats` whose car owner is stored, flagged and
has license and plate, and whose `startTime ≥ now + 30 minutes`, is accepted: the trip is
stored with that negative `totalSeats` and an `availableSeats` that is never negative, and
is 0 unless the Go subtraction wraps. The console's `createNewTrip` sends a negative typed
number on: for an absent trip id and an eligible owner (both ids such that the URL carries
them unchanged) and a start time that passes the console's and the server's test on their
own clock readings, the trip is stored with the negative `totalSeats` and
`availableSeats = 0`. -/
theorem C12_negative_totalSeats_accepted (s : Store) (now : Time) (method : Method)
    (tripID : String) (p : Trip) (owner : User)
    (howner : s.users p.CarOwnerID = some owner) (hflag : owner.IsCarOwner = true)
    (hlicense : owner.DriverLicense ≠ "") (hplate : owner.CarPlateNumber ≠ "")
    (hschedule : now + 30 * Minute ≤ p.StartTime) (hneg : p.TotalSeats < 0) :
    (Server.createOrUpdateTrip s now method tripID (some p)).2 =
        ⟨StatusAccepted, .text ("Trip " ++ method.name ++ " " ++ tripID ++ " successfully")⟩
    ∧ (∃ t, (Server.createOrUpdateTrip s now method tripID (some p)).1.trips tripID = some t
        ∧ t.TotalSeats = p.TotalSeats
        ∧ 0 ≤ t.AvailableSeats
        ∧ (-(2 ^ 63) ≤ p.TotalSeats - (t.EnrolledPassengers.length : Int) →
            t.AvailableSeats = 0))
    ∧ (∀ (nowServer : Time) (input : Console.TripInput) (startTime : Time) (totalSeats : Int),
        Console.plainID tripID = true → Console.plainID input.carOwnerID = true →
        s.trips tripID = none → input.carOwnerID = p.CarOwnerID →
        input.startTime = some startTime → now + 30 * Minute ≤ startTime →
        nowServer + 30 * Minute ≤ startTime →
        input.totalSeats = some totalSeats → totalSeats < 0 → inIntRange totalSeats →
        ∃ after t, Console.createNewTrip s now nowServer tripID input =
            some (after, ["Trip POST " ++ tripID ++ " successfully"])
          ∧ after.trips tripID = some t
          ∧ t.TotalSeats = totalSeats ∧ t.AvailableSeats = 0) := by
  have hnot : ¬ (p.StartTime < now + 30 * Minute) := not_lt.mpr hschedule
  have hrun := Server.createOrUpdateTrip_eligible s now method tripID p owner howner hflag
    hlicense hplate
  rw [if_neg hnot] at hrun
  refine ⟨by rw [hrun], ?_, ?_⟩
  · rw [hrun]
    refine ⟨_, mapSet_same _ _ _, rfl, Server.seatsLeft_nonneg _ _, ?_⟩
    intro hlo
    exact Server.seatsLeft_of_neg _ _ hneg hlo
  · intro nowServer input startTime totalSeats hplain hplainOwner habsent hid hstart hok
      hokServer hseats hnegIn hrange
    have hownerIn : s.users input.carOwnerID = some owner := by rw [hid]; exact howner
    have hconsole := Console.createNewTrip_eligible s now nowServer tripID input owner
      startTime totalSeats hplain hplainOwner habsent hownerIn hflag hlicense hplate hstart
      hseats
    rw [if_neg (not_lt.mpr hok), if_neg (not_lt.mpr hokServer)] at hconsole
    refine ⟨_, _, hconsole, mapSet_same _ _ _, rfl, ?_⟩
    apply Server.seatsLeft_of_neg _ _ hnegIn
    unfold inIntRange at hrange
    simp only [List.length_nil, Nat.cast_zero, sub_zero]
    exact hrange.1

/-- Instance in the scenario: the creation of `T1` with `totalSeats = -3` by a request to
the server, and with `-1` seats at the console. -/
theorem C12_negative_totalSeats_accepted_witness :
    (Server.createOrUpdateTrip Scenario.withOwner 0 .POST "T1"
        (some { Scenario.tripT1 (60 * Minute) with TotalSeats := -3 })).2 =
      ⟨StatusAccepted, .text ("Trip " ++ Method.POST.name ++ " " ++ "T1" ++ " successfully")⟩
    ∧ ∃ after t, Console.createNewTrip Scenario.withOwner 0 (1 * Minute) "T1"
          { carOwnerID := "U1", pickupLocation := "A", altPickupLocation := "",
            startTime := some (60 * Minute), destination := "B", totalSeats := some (-1) } =
        some (after, ["Trip POST " ++ "T1" ++ " successfully"])
      ∧ after.trips "T1" = some t ∧ t.TotalSeats = -1 ∧ t.AvailableSeats = 0 :=
  have h := C12_negative_totalSeats_accepted Scenario.withOwner 0 .POST "T1"
    { Scenario.tripT1 (60 * Minute) with TotalSeats := -3 } Scenario.ownerU1
    (by rfl) (by rfl) (by decide) (by decide) (by decide) (by decide)
  ⟨h.1,
    h.2.2 (1 * Minute)
      { carOwnerID := "U1", pickupLocation := "A", altPickupLocation := "",
        startTime := some (60 * Minute), destination := "B", totalSeats := some (-1) }
      (60 * Minute) (-1) (by decide) (by decide) (by rfl) (by rfl) (by rfl) (by decide)
      (by decide) (by rfl) (by decide) (by decide)⟩

/-! ## Owner validation -/

/-- C13. For every store and decoded payload, `createOrUpdateTrip` replies 404 `Car owner
does not exist` exactly when `carOwnerId` is not a key of `users`. When it is a key, the
reply is one of the two owner errors (400 `Only car owners can create trips`, 400 `Car owner
profile incomplete`) exactly when the user is not flagged `isCarOwner` or has an empty
license or an empty plate: the first for an unflagged user, the second for a flagged one.
The start time plays no part in either: a request that is ownerless and too early gets the
404, and the store is unchanged. -/
theorem C13_owner_validation (s : Store) (now : Time) (method : Method) (tripID : String)
    (p : Trip) :
    ((Server.createOrUpdateTrip s now method tripID (some p)).2 =
        ⟨StatusNotFound, .text "Error - Car owner does not exist"⟩
      ↔ s.users p.CarOwnerID = none)
    ∧ (∀ owner, s.users p.CarOwnerID = some owner →
        (((Server.createOrUpdateTrip s now method tripID (some p)).2 =
              ⟨StatusBadRequest, .text "Error - Only car owners can create trips"⟩
            ∨ (Server.createOrUpdateTrip s now method tripID (some p)).2 =
              ⟨StatusBadRequest, .text "Error - Car owner profile incomplete"⟩)
          ↔ (owner.IsCarOwner = false ∨ owner.DriverLicense = ""
              ∨ owner.CarPlateNumber = ""))
        ∧ (owner.IsCarOwner = false →
            Server.createOrUpdateTrip s now method tripID (some p) =
              (s, ⟨StatusBadRequest, .text "Error - Only car owners can create trips"⟩))
        ∧ (owner.IsCarOwner = true →
            (owner.DriverLicense = "" ∨ owner.CarPlateNumber = "") →
            Server.createOrUpdateTrip s now method tripID (some p) =
              (s, ⟨StatusBadRequest, .text "Error - Car owner profile incomplete"⟩)))
    ∧ (s.users p.CarOwnerID = none → p.StartTime < now + 30 * Minute →
        Server.createOrUpdateTrip s now method tripID (some p) =
          (s, ⟨StatusNotFound, .text "Error - Car owner does not exist"⟩)) := by
  refine ⟨?_, ?_, ?_⟩
  · cases hu : s.users p.CarOwnerID with
    | none => simp [Server.createOrUpdateTrip, hu]
    | some owner =>
      simp only [Server.createOrUpdateTrip, hu]
      split_ifs <;> simp [StatusNotFound, StatusBadRequest, StatusAccepted]
  · intro owner hu
    have hunflagged : owner.IsCarOwner = false →
        Server.createOrUpdateTrip s now method tripID (some p) =
          (s, ⟨StatusBadRequest, .text "Error - Only car owners can create trips"⟩) := by
      intro hflag
      simp [Server.createOrUpdateTrip, hu, hflag]
    have hincomplete : owner.IsCarOwner = true →
        (owner.DriverLicense = "" ∨ owner.CarPlateNumber = "") →
        Server.createOrUpdateTrip s now method tripID (some p) =
          (s, ⟨StatusBadRequest, .text "Error - Car owner profile incomplete"⟩) := by
      intro hflag hempty
      rcases hempty with h | h <;> simp [Server.createOrUpdateTrip, hu, hflag, h]
    refine ⟨⟨?_, ?_⟩, hunflagged, hincomplete⟩
    · intro hreply
      by_contra hcon
      simp only [not_or, Bool.not_eq_false] at hcon
      obtain ⟨hflag, hlicense, hplate⟩ := hcon
      have hrun := Server.createOrUpdateTrip_eligible s now method tripID p owner hu hflag
        hlicense hplate
      rw [hrun] at hreply
      split_ifs at hreply
      · rcases hreply with h | h <;> simp at h
      · rcases hreply with h | h <;> simp [StatusAccepted, StatusBadRequest] at h
    · intro hbad
      cases hflag : owner.IsCarOwner with
      | false => exact Or.inl (by rw [hunflagged hflag])
      | true =>
        rcases hbad with h | h
        · rw [hflag] at h; cases h
        · exact Or.inr (by rw [hincomplete hflag h])
  · intro hu _
    simp [Server.createOrUpdateTrip, hu]

/-- Instance: on the empty store, a request for a trip of `U1` starting at once. -/
theorem C13_owner_validation_witness :
    Server.createOrUpdateTrip Store.empty 0 .POST "T1" (some (Scenario.tripT1 0)) =
      (Store.empty, ⟨StatusNotFound, .text "Error - Car owner does not exist"⟩) :=
  (C13_owner_validation Store.empty 0 .POST "T1" (Scenario.tripT1 0)).2.2 (by rfl) (by decide)

/-! ## Car owners stored by the server -/

theorem Server.handle_keeps_owners_complete (s : Store) (now : Time) (request : Server.Request)
    (hinv : ∀ id u, s.users id = some u → u.IsCarOwner = true →
      u.DriverLicense ≠ "" ∧ u.CarPlateNumber ≠ "") :
    ∀ id u, (Server.handle s now request).1.users id = some u → u.IsCarOwner = true →
      u.DriverLicense ≠ "" ∧ u.CarPlateNumber ≠ "" := by
  have hstore : ∀ (method : Method) (userID : String) (payload : Option User) id u,
      (Server.createOrUpdateUser s now method userID payload).1.users id = some u →
      u.IsCarOwner = true → u.DriverLicense ≠ "" ∧ u.CarPlateNumber ≠ "" := by
    intro method userID payload id u hu hflag
    cases payload with
    | none => exact hinv id u hu hflag
    | some decoded =>
      simp only [Server.createOrUpdateUser] at hu
      split_ifs at hu with hpost hbad hbad
      · exact hinv id u hu hflag
      · simp only [mapSet] at hu
        split_ifs at hu with hid
        · cases hu
          simp only [Bool.and_eq_true, Bool.or_eq_true, beq_iff_eq, not_and, not_or] at hbad
          exact hbad hflag
        · exact hinv id u hu hflag
      · exact hinv id u hu hflag
      · simp only [mapSet] at hu
        split_ifs at hu with hid
        · cases hu
          simp only [Bool.and_eq_true, Bool.or_eq_true, beq_iff_eq, not_and, not_or] at hbad
          exact hbad hflag
        · exact hinv id u hu hflag
  have hdelete : ∀ (method : Method) (userID : String) id u,
      (Server.getUser s method userID).1.users id = some u →
      u.IsCarOwner = true → u.DriverLicense ≠ "" ∧ u.CarPlateNumber ≠ "" := by
    intro method userID id u hu hflag
    unfold Server.getUser at hu
    split at hu
    · split_ifs at hu
      · exact hinv id u hu hflag
      · simp only [mapDelete] at hu
        split_ifs at hu
        exact hinv id u hu hflag
      · exact hinv id u hu hflag
    · exact hinv id u hu hflag
  have htrip : ∀ (method : Method) (tripID : String) (payload : Option Trip),
      (Server.createOrUpdateTrip s now method tripID payload).1.users = s.users := by
    intro method tripID payload
    unfold Server.createOrUpdateTrip
    split
    · rfl
    · split
      · rfl
      · split_ifs <;> rfl
  have hget : ∀ (method : Method) (tripID : String),
      (Server.getTrip s method tripID).1.users = s.users := by
    intro method tripID
    unfold Server.getTrip
    split
    · split_ifs <;> rfl
    · rfl
  have henroll : ∀ (tripID : String) (payload : Option (String → Option String)),
      (Server.enrollPassenger s tripID payload).1.users = s.users := by
    intro tripID payload
    unfold Server.enrollPassenger
    split
    · rfl
    · split
      · rfl
      · split
        · split_ifs <;> rfl
        · rfl
  have hstart : ∀ (tripID carOwnerID : String),
      (Server.startTrip s now tripID carOwnerID).1.users = s.users := by
    intro tripID carOwnerID
    unfold Server.startTrip
    split
    · rfl
    · split_ifs <;> rfl
  intro id u hu hflag
  cases request with
  | users => exact hinv id u hu hflag
  | trips => exact hinv id u hu hflag
  | user method userID payload =>
    cases method with
    | GET => exact hdelete .GET userID id u hu hflag
    | DELETE => exact hdelete .DELETE userID id u hu hflag
    | POST => exact hstore .POST userID payload id u hu hflag
    | PUT => exact hstore .PUT userID payload id u hu hflag
  | trip method tripID payload =>
    cases method with
    | GET => exact hinv id u (by rw [← hget .GET tripID]; exact hu) hflag
    | DELETE => exact hinv id u (by rw [← hget .DELETE tripID]; exact hu) hflag
    | POST => exact hinv id u (by rw [← htrip .POST tripID payload]; exact hu) hflag
    | PUT => exact hinv id u (by rw [← htrip .PUT tripID payload]; exact hu) hflag
  | enroll tripID payload => exact hinv id u (by rw [← henroll tripID payload]; exact hu) hflag
  | start tripID carOwnerID =>
    exact hinv id u (by rw [← hstart tripID carOwnerID]; exact hu) hflag

theorem Server.run_keeps_owners_complete (trace : List (Time × Server.Request)) :
    ∀ s : Store,
      (∀ id u, s.users id = some u → u.IsCarOwner = true →
        u.DriverLicense ≠ "" ∧ u.CarPlateNumber ≠ "") →
      ∀ id u, (Server.run s trace).users id = some u → u.IsCarOwner = true →
        u.DriverLicense ≠ "" ∧ u.CarPlateNumber ≠ "" := by
  induction trace with
  | nil => intro s hinv; exact hinv
  | cons head rest ih =>
    intro s hinv
    obtain ⟨now, request⟩ := head
    exact ih _ (Server.handle_keeps_owners_complete s now request hinv)

/-- C14. In the store the server has after handling any sequence of requests from the
empty maps, every stored user with `IsCarOwner = true` has a non-empty `DriverLicense` and a
non-empty `CarPlateNumber`; so in such a store `createOrUpdateTrip` never gives the reply of
its `Car owner profile incomplete` branch, whatever the request. -/
theorem C14_reachable_owners_complete (trace : List (Time × Server.Request)) :
    (∀ id u, (Server.run Store.empty trace).users id = some u → u.IsCarOwner = true →
      u.DriverLicense ≠ "" ∧ u.CarPlateNumber ≠ "")
    ∧ (∀ (now : Time) (method : Method) (tripID : String) (payload : Option Trip),
        (Server.createOrUpdateTrip (Server.run Store.empty trace) now method tripID payload).2
          ≠ ⟨StatusBadRequest, .text "Error - Car owner profile incomplete"⟩) := by
  have hinv := Server.run_keeps_owners_complete trace Store.empty
    (by intro id u hu; simp [Store.empty] at hu)
  refine ⟨hinv, ?_⟩
  intro now method tripID payload
  generalize Server.run Store.empty trace = s at hinv
  unfold Server.createOrUpdateTrip
  split
  · simp
  · rename_i p
    split
    · simp [StatusNotFound, StatusBadRequest]
    · rename_i carOwner hfound
      split_ifs with hunflagged hbad hearly
      · simp
      · exfalso
        simp only [Bool.and_eq_true, Bool.or_eq_true, beq_iff_eq] at hbad
        obtain ⟨hlicense, hplate⟩ := hinv _ _ hfound hbad.1
        rcases hbad.2 with h | h
        · exact hlicense h
        · exact hplate h
      · simp
      · simp [StatusAccepted, StatusBadRequest]

/-- Instance: `U1` is created, then an update of `U1` without plate number is sent. -/
theorem C14_reachable_owners_complete_witness :
    (Server.run Store.empty
        [(0, .user .POST "U1" (some Scenario.ownerU1)),
          (1, .user .PUT "U1" (some { Scenario.ownerU1 with CarPlateNumber := "" }))]).users
        "U1" = some Scenario.ownerU1
    ∧ Scenario.ownerU1.DriverLicense ≠ "" ∧ Scenario.ownerU1.CarPlateNumber ≠ "" :=
  ⟨by rfl,
    (C14_reachable_owners_complete
      [(0, .user .POST "U1" (some Scenario.ownerU1)),
        (1, .user .PUT "U1" (some { Scenario.ownerU1 with CarPlateNumber := "" }))]).1
      "U1" Scenario.ownerU1 (by rfl) (by rfl)⟩

end CarPool
